/-
Verification of the ploston-runner connection, dispatch and lifecycle engine
against its specification.

Shallow embedding of `src/ploston_runner` (Python).  Each definition mirrors
one source function or data type; machine floats of the source (all delay
values) are modelled as rationals, Python dicts keyed by insertion order as
association lists, and coroutine effects (transport writes, logging,
callbacks) as explicit outcome values.
-/

import Mathlib

namespace PlostonRunner

/-! ## Data model (`types.py`) -/

/-- `RunnerConnectionStatus` enum from `types.py`. -/
inductive RunnerConnectionStatus where
  | disconnected
  | connecting
  | connected
  | reconnecting
  deriving DecidableEq, Repr

/-- `MCPStatus` enum from `types.py`. -/
inductive MCPStatus where
  | available
  | unavailable
  | unknown
  deriving DecidableEq, Repr

/-- `RunnerConfig` dataclass from `types.py` (the fields the engine reads;
durations modelled as rationals). -/
structure RunnerConfig where
  reconnectDelay : ℚ := 5
  maxReconnectDelay : ℚ := 60
  heartbeatInterval : ℚ := 30
  healthCheckInterval : ℚ := 30
  deriving DecidableEq, Repr

/-- `JSONRPCErrorCode.INTERNAL_ERROR` from `types.py`. -/
def internalErrorCode : Int := -32603

/-- `JSONRPCErrorCode.METHOD_NOT_FOUND` from `types.py`. -/
def methodNotFoundCode : Int := -32601

/-! ## Connection engine state (`connection.py`)

`RunnerConnection` instance state: `_status`, `_request_id`,
`_pending_requests` (modelled as the list of request ids whose futures are
unresolved, in insertion order), `_reconnect_delay`, `_should_run`, `_ws`.
The websocket handle is `none` when `_ws is None`, otherwise carries whether
the underlying socket is still open (a closed socket raises on `send`). -/

/-- State of the websocket object held in `_ws`. -/
inductive WsState where
  | open_
  | closed
  deriving DecidableEq, Repr

/-- Mutable state of one `RunnerConnection` instance. -/
structure EngineState where
  status : RunnerConnectionStatus
  requestId : Nat
  pending : List Nat
  reconnectDelay : ℚ
  shouldRun : Bool
  ws : Option WsState
  deriving DecidableEq, Repr

/-- State of a freshly constructed `RunnerConnection` (`__init__`). -/
def initialEngineState (cfg : RunnerConfig) : EngineState :=
  { status := .disconnected
    requestId := 0
    pending := []
    reconnectDelay := cfg.reconnectDelay
    shouldRun := false
    ws := none }

/-- `RunnerConnection._next_request_id`: increment `_request_id` and return it. -/
def nextRequestId (s : EngineState) : Nat × EngineState :=
  let rid := s.requestId + 1
  (rid, { s with requestId := rid })

/-- `RunnerConnection.disconnect`: clears `_should_run`, cancels the
heartbeat and receive tasks, closes and clears `_ws`, sets the status to
`DISCONNECTED`.  It never touches `_pending_requests`. -/
def disconnect (s : EngineState) : EngineState :=
  { s with shouldRun := false, ws := none, status := .disconnected }

/-! ## `send_request` / `send_notification` (`connection.py` lines 182-254)

`send_request` raises `ConnectionError("Not connected to Control Plane")`
iff `self._ws` is `None`; otherwise it assigns the next id, registers a
pending future, and writes the frame.  A write on a closed socket raises
inside the `try`, whose handler pops the pending entry and re-raises.
The outcome below records the point reached; the awaited response /
timeout path is modelled separately where a claim needs it. -/

/-- Outcome of the send portion of `send_request` / `send_notification`. -/
inductive SendOutcome where
  /-- `ConnectionError("Not connected to Control Plane")` raised by the
  `if not self._ws` guard. -/
  | notConnected
  /-- the transport write raised (closed socket); for `send_request` the
  pending entry was popped again before re-raising. -/
  | sendFailed
  /-- the frame was written to the transport; for a request it carries the
  assigned id and the method. -/
  | sent (id : Option Nat) (method : String)
  deriving DecidableEq, Repr

/-- `RunnerConnection.send_request` up to the point where the frame is on
the wire (or an exception has propagated). -/
def sendRequestAttempt (s : EngineState) (method : String) :
    SendOutcome × EngineState :=
  match s.ws with
  | none => (.notConnected, s)
  | some w =>
    let (rid, s1) := nextRequestId s
    let s2 := { s1 with pending := s1.pending ++ [rid] }
    match w with
    | .open_ => (.sent (some rid) method, s2)
    | .closed => (.sendFailed, { s2 with pending := s2.pending.erase rid })

/-- `RunnerConnection.send_notification`: same `if not self._ws` guard, no
id, no pending entry. -/
def sendNotificationAttempt (s : EngineState) (method : String) :
    SendOutcome × EngineState :=
  match s.ws with
  | none => (.notConnected, s)
  | some w =>
    match w with
    | .open_ => (.sent none method, s)
    | .closed => (.sendFailed, s)

/-! ## `connect` and the reconnection loop (`connection.py` lines 93-151, 328-348) -/

/-- What one `connect()` attempt runs into: the `websockets.connect` call
fails, or the `runner/register` response carries an `error` (so
`_authenticate` raises), or everything succeeds. -/
inductive ConnectOutcome where
  | wsFail
  | authErr (message : String)
  | ok
  deriving DecidableEq, Repr

/-- Error surfaced (re-raised as `ConnectionError`) by `connect()`. -/
inductive ConnectError where
  | connectFailed
  | authFailed (message : String)
  deriving DecidableEq, Repr

/-- `RunnerConnection.connect`: early-return when already `CONNECTED`;
otherwise set `CONNECTING` and `_should_run`, open the websocket, send the
`runner/register` request (which consumes one request id; its pending entry
is resolved by the response or popped when the await raises), and on
success set `CONNECTED` and reset `_reconnect_delay`; on any exception set
`DISCONNECTED` and re-raise `ConnectionError`. -/
def connectStep (cfg : RunnerConfig) (s : EngineState) (o : ConnectOutcome) :
    EngineState × Option ConnectError :=
  if s.status = .connected then (s, none)
  else
    let s1 := { s with status := .connecting, shouldRun := true }
    match o with
    | .wsFail => ({ s1 with status := .disconnected }, some .connectFailed)
    | .authErr m =>
        -- websocket opened, register request sent (one id consumed); the
        -- error response resolved its pending future, then `_authenticate`
        -- raised and `connect` set DISCONNECTED without clearing `_ws`.
        ({ s1 with ws := some .open_, requestId := s1.requestId + 1,
                   status := .disconnected }, some (.authFailed m))
    | .ok =>
        ({ s1 with ws := some .open_, requestId := s1.requestId + 1,
                   status := .connected,
                   reconnectDelay := cfg.reconnectDelay }, none)

/-- The request id consumed by the `runner/register` request of one
`connect()` attempt, when the attempt got as far as sending it (the
websocket opened): `None` exactly when the counter did not move. -/
def connectAssignedId (cfg : RunnerConfig) (s : EngineState)
    (o : ConnectOutcome) : Option Nat :=
  let s' := (connectStep cfg s o).1
  if s'.requestId = s.requestId then none else some s'.requestId

/-- Observable trace of one `_handle_disconnect` run: the
`asyncio.sleep(self._reconnect_delay)` durations performed (one per
attempt, in order), the request ids consumed by the attempts' register
requests, and the final state. -/
structure LoopTrace where
  sleeps : List ℚ
  ids : List Nat
  final : EngineState
  deriving DecidableEq, Repr

/-- The `while self._should_run` loop of
`RunnerConnection._handle_disconnect`, driven by the outcome of each
successive `connect()` attempt.  The outcome list is the observation
window: an empty remainder stops the unrolling. -/
def reconnectLoop (cfg : RunnerConfig) (s : EngineState) :
    List ConnectOutcome → LoopTrace
  | [] => ⟨[], [], s⟩
  | o :: rest =>
    if s.shouldRun then
      let d := s.reconnectDelay
      let (s', err) := connectStep cfg s o
      let ids0 := (connectAssignedId cfg s o).toList
      match err with
      | none => ⟨[d], ids0, s'⟩
      | some _ =>
          let s'' := { s' with
            reconnectDelay := min (s'.reconnectDelay * 2) cfg.maxReconnectDelay }
          let t := reconnectLoop cfg s'' rest
          ⟨d :: t.sleeps, ids0 ++ t.ids, t.final⟩
    else ⟨[], [], s⟩

/-- `RunnerConnection._handle_disconnect`: return unchanged when
`_should_run` is cleared; otherwise set `RECONNECTING` and run the retry
loop. -/
def handleDisconnect (cfg : RunnerConfig) (s : EngineState)
    (outcomes : List ConnectOutcome) : LoopTrace :=
  if s.shouldRun then
    reconnectLoop cfg { s with status := .reconnecting } outcomes
  else ⟨[], [], s⟩

/-- Entry of `_handle_disconnect` before any sleep: the
`Connected → Reconnecting` transition itself. -/
def handleDisconnectEnter (s : EngineState) : EngineState :=
  if s.shouldRun then { s with status := .reconnecting } else s

/-! ## Lifetime of one `RunnerConnection` instance

A run of the instance is a sequence of the operations that can move its
state: explicit `connect` / `disconnect` calls, `_handle_disconnect`
(triggered by the receive loop), and `send_request` calls.  `runOps`
collects every request id assigned along the way (by `send_request`
directly and by the register requests inside `connect`). -/

/-- One operation on a `RunnerConnection` instance. -/
inductive EngineOp where
  | sendReq (method : String)
  | connectOp (o : ConnectOutcome)
  | disconnectOp
  | handleDisconnectOp (outcomes : List ConnectOutcome)

/-- Apply one operation; also returns the request ids it assigned. -/
def applyOp (cfg : RunnerConfig) (s : EngineState) :
    EngineOp → EngineState × List Nat
  | .sendReq m =>
      let (out, s') := sendRequestAttempt s m
      (s', match out with | .notConnected => [] | _ => [s'.requestId])
  | .connectOp o =>
      ((connectStep cfg s o).1, (connectAssignedId cfg s o).toList)
  | .disconnectOp => (disconnect s, [])
  | .handleDisconnectOp os =>
      let t := handleDisconnect cfg s os
      (t.final, t.ids)

/-- Run a sequence of operations from `s`, collecting all assigned
request ids in order of assignment. -/
def runOps (cfg : RunnerConfig) (s : EngineState) :
    List EngineOp → EngineState × List Nat
  | [] => (s, [])
  | op :: rest =>
      let (s', ids) := applyOp cfg s op
      let r := runOps cfg s' rest
      (r.1, ids ++ r.2)

/-! ## Inbound message routing (`connection.py` lines 273-313) -/

/-- Opaque payload standing for a JSON result object. -/
abbrev Payload := String

/-- What a registered handler does when invoked (`await handler(params)`):
return a result (possibly `None`) or raise with a message. -/
inductive HandlerBehavior where
  | succeed (result : Option Payload)
  | raiseErr (message : String)
  deriving DecidableEq, Repr

/-- The shape of an inbound frame that `_handle_message` inspects:
its `id` field (if present) and its `method` field (if present). -/
structure InboundMsg where
  id : Option Nat
  method : Option String
  deriving DecidableEq, Repr

/-- Effect of one `_handle_message` call. -/
inductive HandleAction where
  /-- the frame matched a pending request id: the future is resolved and
  the entry removed. -/
  | resolvePending (id : Nat)
  /-- a `JSONRPCResponse` with `result` was written back. -/
  | replyResult (id : Nat) (result : Payload)
  /-- a `JSONRPCResponse` with `error = {code, message}` was written back. -/
  | replyError (id : Nat) (code : Int) (message : String)
  /-- `logger.warning("Received message without method: ...")`, no reply. -/
  | logNoMethod
  /-- `logger.warning("No handler for method: ...")`, no reply. -/
  | logNoHandler
  /-- a handler for a frame without `id` raised: `logger.error` only. -/
  | logHandlerError
  /-- handler ran and returned `None`, or returned a result for a frame
  without `id`: nothing written back. -/
  | noReply
  deriving DecidableEq, Repr

/-- Dispatch part of `RunnerConnection._handle_message` once the frame did
not match a pending request: method lookup, handler invocation, reply. -/
def dispatchToHandler (handlers : List (String × HandlerBehavior))
    (msg : InboundMsg) : HandleAction :=
  match msg.method with
  | none => .logNoMethod
  | some m =>
    match (handlers.find? (fun h => h.1 = m)).map Prod.snd with
    | some (.succeed r) =>
        match msg.id, r with
        | some i, some res => .replyResult i res
        | _, _ => .noReply
    | some (.raiseErr e) =>
        match msg.id with
        | some i => .replyError i internalErrorCode e
        | none => .logHandlerError
    | none => .logNoHandler

/-- `RunnerConnection._handle_message`: a frame whose `id` is in
`_pending_requests` resolves that entry; everything else goes through
handler dispatch.  Returns the action and the updated pending table. -/
def handleMessage (pending : List Nat)
    (handlers : List (String × HandlerBehavior)) (msg : InboundMsg) :
    HandleAction × List Nat :=
  match msg.id with
  | some i =>
      if i ∈ pending then (.resolvePending i, pending.erase i)
      else (dispatchToHandler handlers msg, pending)
  | none => (dispatchToHandler handlers msg, pending)

/-! ## Heartbeat (`connection.py` lines 315-326 and `heartbeat.py`) -/

/-- One iteration of `RunnerConnection._heartbeat_loop` after the sleep:
the `runner/heartbeat` notification (with the current wall-clock timestamp)
that it sends, if any.  The loop has no failure counter: exceptions are
logged and the next iteration proceeds. -/
def connHeartbeatIter (s : EngineState) (now : ℚ) : Option (String × ℚ) :=
  if s.ws.isSome ∧ s.status = .connected then some ("runner/heartbeat", now)
  else none

/-- Loop guard of `RunnerConnection._heartbeat_loop`
(`while self._should_run`): the loop keeps running iff `_should_run`,
whatever the connection status. -/
def connHeartbeatLoopContinues (s : EngineState) : Bool :=
  s.shouldRun

/-- Mutable state of a `HeartbeatManager` (`heartbeat.py`). -/
structure HBMgrState where
  running : Bool
  consecutiveFailures : Nat
  hasOnTimeout : Bool
  deriving DecidableEq, Repr

/-- `HeartbeatManager._send_heartbeat`: attempt the send; on success reset
`_consecutive_failures` to 0; on failure increment it and re-raise.
Returns the new state and whether an exception propagated. -/
def sendHeartbeatStep (m : HBMgrState) (sendOk : Bool) : HBMgrState × Bool :=
  if sendOk then ({ m with consecutiveFailures := 0 }, false)
  else ({ m with consecutiveFailures := m.consecutiveFailures + 1 }, true)

/-- One iteration of `HeartbeatManager._heartbeat_loop` after the sleep:
call `_send_heartbeat`; if it raised, increment `_consecutive_failures`
again and, when the counter has reached 3 and an `on_timeout` callback is
set, invoke it.  Returns the new state and whether `on_timeout` fired. -/
def hbLoopIter (m : HBMgrState) (sendOk : Bool) : HBMgrState × Bool :=
  let (m1, raised) := sendHeartbeatStep m sendOk
  if raised then
    let m2 := { m1 with consecutiveFailures := m1.consecutiveFailures + 1 }
    (m2, decide (m2.consecutiveFailures ≥ 3) && m2.hasOnTimeout)
  else (m1, false)

/-! ## Availability reporting (`availability.py`) -/

/-- `MCPAvailability` dataclass from `types.py`. -/
structure MCPAvailability where
  name : String
  status : MCPStatus
  tools : List String := []
  error : Option String := none
  deriving DecidableEq, Repr

/-- `AvailabilityReporter.available_tools`: iterate `_availability.values()`
in insertion order, extending the list with the tools of every entry whose
status is `AVAILABLE`.  No deduplication is performed. -/
def availableTools : List MCPAvailability → List String
  | [] => []
  | a :: rest =>
      (if a.status = .available then a.tools else []) ++ availableTools rest

/-- `AvailabilityReporter.unavailable_mcps`: names of entries whose status
is `UNAVAILABLE`. -/
def unavailableMcps (av : List MCPAvailability) : List String :=
  (av.filter (fun a => a.status = .unavailable)).map (fun a => a.name)

/-- Payload `{available, unavailable}` built by
`AvailabilityReporter._report_availability` from `_availability.values()`:
tools of `AVAILABLE` entries are extended onto `available`; names of all
other entries are appended to `unavailable`. -/
def reportAvailabilityPayload : List MCPAvailability → List String × List String
  | [] => ([], [])
  | a :: rest =>
      let p := reportAvailabilityPayload rest
      if a.status = .available then (a.tools ++ p.1, p.2)
      else (p.1, a.name :: p.2)

/-- `AvailabilityReporter.is_tool_available`. -/
def isToolAvailable (av : List MCPAvailability) (tool : String) : Bool :=
  tool ∈ availableTools av

/-! ## Tool proxy (`proxy.py`) -/

/-- `"{}"`: the default taken by `response.get("result", {})`. -/
def emptyObject : Payload := "{}"

/-- `ToolProxy.__init__` default for `timeout`. -/
def defaultProxyTimeout : ℚ := 60

/-- What `send_request("tool/proxy", ...)` comes back with: a response
object (with optional truthy `error` member `{code, message}` and optional
`result` member), a `TimeoutError`, or some other raised exception. -/
inductive CPResponse where
  | respond (error : Option (Int × String)) (result : Option Payload)
  | timedOut
  | raiseOther (message : String)
  deriving DecidableEq, Repr

/-- Environment a `ToolProxy` call runs in: the availability view
(`AvailabilityReporter` state), `RunnerConnection.is_connected`, the
configured `_timeout`, and the CP's reaction to a proxied request. -/
structure ProxyEnv where
  availability : List MCPAvailability
  connected : Bool
  proxyTimeout : ℚ := defaultProxyTimeout
  cpResponse : CPResponse
  deriving DecidableEq, Repr

/-- Value returned by `proxy_tool_call` when the request completed. -/
inductive ProxyReturn where
  /-- `response.get("result", {})` returned on the success path. -/
  | ok (result : Payload)
  /-- `{"status": "error", "error": {code, message}}` returned (not
  raised) when the response carries an `error`. -/
  | errData (code : Int) (message : String)
  deriving DecidableEq, Repr

/-- Observable outcome of `invoke_tool` / `proxy_tool_call`. -/
inductive InvokeOutcome where
  /-- the locally bound provider was invoked; its result is returned
  verbatim and nothing is sent to CP. -/
  | localResult (r : Payload)
  /-- a `tool/proxy` request with params `{tool, args}` and the given
  timeout was sent to CP, and `ret` was returned to the caller. -/
  | proxied (tool : String) (args : Payload) (timeout : ℚ) (ret : ProxyReturn)
  /-- `ConnectionError("Not connected to Control Plane")` raised. -/
  | raisedNotConnected
  /-- `TimeoutError` re-raised (a `tool/proxy` frame was still sent). -/
  | raisedTimeout
  /-- other exception re-raised. -/
  | raisedOther (message : String)
  deriving DecidableEq, Repr

/-- Python `timeout or self._timeout` (`proxy.py` line 88): `None` and the
falsy `0.0` both select the configured default. -/
def pyOrTimeout (t : Option ℚ) (d : ℚ) : ℚ :=
  match t with
  | some x => if x = 0 then d else x
  | none => d

/-- `ToolProxy.proxy_tool_call`. -/
def proxyToolCall (env : ProxyEnv) (tool : String) (args : Payload)
    (timeout : Option ℚ) : InvokeOutcome :=
  if env.connected then
    match env.cpResponse with
    | .timedOut => .raisedTimeout
    | .raiseOther m => .raisedOther m
    | .respond err res =>
        match err with
        | some (c, m) =>
            .proxied tool args (pyOrTimeout timeout env.proxyTimeout)
              (.errData c m)
        | none =>
            .proxied tool args (pyOrTimeout timeout env.proxyTimeout)
              (.ok (res.getD emptyObject))
  else .raisedNotConnected

/-- `ToolProxy.invoke_tool`: when the tool is locally available and a
local invoker was passed, invoke it and return its result verbatim; when
it is available but no invoker was passed, log a warning and fall through;
otherwise proxy to CP. -/
def invokeTool (env : ProxyEnv)
    (localInvoker : Option (String → Payload → Payload))
    (tool : String) (args : Payload) (timeout : Option ℚ) : InvokeOutcome :=
  if tool ∈ availableTools env.availability then
    match localInvoker with
    | some inv => .localResult (inv tool args)
    | none => proxyToolCall env tool args timeout
  else proxyToolCall env tool args timeout

/-! ## Config receiver (`config_receiver.py`) -/

/-- `[A-Za-z_]`: first character of an environment-variable name in
`ENV_VAR_PATTERN`. -/
def isVarStartChar (c : Char) : Bool := c.isAlpha || c = '_'

/-- `[A-Za-z0-9_]`: subsequent characters of a variable name. -/
def isVarRestChar (c : Char) : Bool := c.isAlphanum || c = '_'

/-- After `"${"` has been consumed, try to read `NAME}` where `NAME`
matches `[A-Za-z_][A-Za-z0-9_]*` (greedy, as the regex).  Returns the name
and the remaining characters after the closing brace. -/
def takeVarName : List Char → Option (List Char × List Char)
  | [] => none
  | c :: rest =>
      if isVarStartChar c then
        match rest.dropWhile isVarRestChar with
        | '\x7d' :: r2 => some (c :: rest.takeWhile isVarRestChar, r2)
        | _ => none
      else none

theorem takeVarName_length {l n r} (h : takeVarName l = some (n, r)) :
    r.length < l.length := by
  match l with
  | [] => simp [takeVarName] at h
  | c :: rest =>
    simp only [takeVarName] at h
    split at h
    · split at h
      · rename_i heq
        obtain ⟨h1, h2⟩ := Option.some.injEq .. ▸ h
        cases h
        have hd : (rest.dropWhile isVarRestChar).length ≤ rest.length :=
          (List.dropWhile_suffix isVarRestChar).length_le
        rw [heq] at hd
        simp only [List.length_cons] at hd ⊢
        omega
      · exact absurd h (by simp)
    · exact absurd h (by simp)

/-- `ConfigReceiver._resolve_env_vars` on the character list of the value:
left-to-right scan replacing each non-overlapping match of
`ENV_VAR_PATTERN` by the process-environment value of the named variable,
or leaving the reference literal (with a warning) when the variable is
unset; `lookup` stands for `os.environ.get`. -/
def resolveChars (lookup : String → Option String) : List Char → List Char
  | [] => []
  | '$' :: '\x7b' :: rest2 =>
      match h : takeVarName rest2 with
      | some (name, rest3) =>
          (match lookup (String.mk name) with
           | some v => v.data ++ resolveChars lookup rest3
           | none =>
               '$' :: '\x7b' :: (name ++ '\x7d' :: resolveChars lookup rest3))
      | none => '$' :: resolveChars lookup ('\x7b' :: rest2)
  | c :: rest => c :: resolveChars lookup rest
  termination_by l => l.length
  decreasing_by
  all_goals simp only [List.length_cons]
  all_goals try omega
  all_goals (have hlen := takeVarName_length h; omega)

/-- `ConfigReceiver._resolve_env_vars`. -/
def resolveEnvVars (lookup : String → Option String) (value : String) :
    String :=
  String.mk (resolveChars lookup value.data)

/-- `ConfigReceiver._resolve_env_dict` (dict as association list in
insertion order). -/
def resolveEnvDict (lookup : String → Option String)
    (env : List (String × String)) : List (String × String) :=
  env.map (fun kv => (kv.1, resolveEnvVars lookup kv.2))

/-- One raw entry of the pushed `mcps` object: the keys
`_parse_mcp_config` reads via `config_dict.get`. -/
structure RawMCPEntry where
  command : Option String := none
  args : Option (List String) := none
  env : Option (List (String × String)) := none
  url : Option String := none
  deriving DecidableEq, Repr

/-- `MCPConfig` dataclass from `types.py`. -/
structure MCPConfig where
  name : String
  command : String := ""
  args : List String := []
  env : List (String × String) := []
  url : Option String := none
  deriving DecidableEq, Repr

/-- `ConfigReceiver._parse_mcp_config`: fill every field with
`config_dict.get(..., default)`; resolve env vars in `env`.  No shape
validation of any kind is performed, so on a well-typed entry this never
raises. -/
def parseMcpConfig (lookup : String → Option String) (name : String)
    (d : RawMCPEntry) : MCPConfig :=
  { name := name
    command := d.command.getD ""
    args := d.args.getD []
    env := resolveEnvDict lookup (d.env.getD [])
    url := d.url }

/-- Reply of `ConfigReceiver.handle_config_push`:
`{status: "ok", mcps_received: N}` or `{status: "error", message}`. -/
inductive PushReply where
  | ok (mcpsReceived : Nat)
  | error (message : String)
  deriving DecidableEq, Repr

/-- `ConfigReceiver.handle_config_push` on a well-typed params object:
parse every entry of `params["mcps"]` (the per-entry `try/except` never
fires because `_parse_mcp_config` performs no validation), store the
result as the current config, and reply `ok` with the number of parsed
entries. -/
def handleConfigPush (lookup : String → Option String)
    (mcpsRaw : List (String × RawMCPEntry)) :
    PushReply × List (String × MCPConfig) :=
  let mcps := mcpsRaw.map (fun nd => (nd.1, parseMcpConfig lookup nd.1 nd.2))
  (.ok mcps.length, mcps)

/-! ## Theorems -/

/-! ### C1 — pending table on leaving `Connected` -/

/-- A connected engine with one unresolved pending request. -/
def c1State : EngineState :=
  { status := .connected, requestId := 1, pending := [1],
    reconnectDelay := 5, shouldRun := true, ws := some .open_ }

/-- C1 counterexample: with request id 1 pending, neither `disconnect()`
nor the `Connected → Reconnecting` transition of `_handle_disconnect`
completes or removes the entry — the pending table still holds `[1]`, so
it is not left empty as the claim states. -/
theorem c1_pending_not_completed_cex :
    (disconnect c1State).pending = [1] ∧
    (handleDisconnectEnter c1State).pending = [1] ∧
    (disconnect c1State).pending ≠ [] ∧
    (handleDisconnectEnter c1State).status = .reconnecting :=
  ⟨rfl, rfl, by simp [disconnect, c1State], rfl⟩

/-- C1 (amended): leaving the `Connected` state — by `disconnect()` or by
the `_handle_disconnect` transition to `Reconnecting` — leaves the
pending-request table untouched: no entry is completed with a
`ConnectionLost` failure and the table is not emptied.  Entries are
resolved only by a matching response, by the per-call timeout, or by a
send error inside `send_request` itself. -/
theorem pending_table_untouched_leaving_connected (s : EngineState) :
    (disconnect s).pending = s.pending ∧
    (handleDisconnectEnter s).pending = s.pending := by
  refine ⟨rfl, ?_⟩
  unfold handleDisconnectEnter
  split <;> rfl

/-! ### C2 — send guard while not `Connected` -/

/-- An engine mid-`connect()`: status `CONNECTING`, websocket open. -/
def c2State : EngineState :=
  { status := .connecting, requestId := 3, pending := [],
    reconnectDelay := 5, shouldRun := true, ws := some .open_ }

/-- C2 counterexample: with the websocket handle set and the status
`CONNECTING`, a `send_request` for a method other than the registration
handshake does not fail with `NotConnected` — the frame is written to the
transport. -/
theorem c2_send_while_connecting_cex :
    c2State.status ≠ .connected ∧
    (sendRequestAttempt c2State "tool/proxy").1 =
      .sent (some 4) "tool/proxy" ∧
    (sendRequestAttempt c2State "tool/proxy").1 ≠ .notConnected ∧
    (sendNotificationAttempt c2State "runner/heartbeat").1 ≠ .notConnected :=
  ⟨by decide, rfl, by decide, by decide⟩

/-- C2 (amended): `send_request` and `send_notification` fail fast with
`NotConnected` exactly when the websocket handle is absent (`_ws is
None`); the status field is never consulted.  A call made while a handle
is present — e.g. during `Connecting` or `Reconnecting` — proceeds to the
transport: it writes the frame when the socket is open (assigning the next
request id) and fails with a transport error, not `NotConnected`, when the
socket is closed. -/
theorem send_fails_notConnected_iff_no_ws (s : EngineState) (m : String) :
    ((sendRequestAttempt s m).1 = .notConnected ↔ s.ws = none) ∧
    ((sendNotificationAttempt s m).1 = .notConnected ↔ s.ws = none) ∧
    (s.ws = some .open_ →
      (sendRequestAttempt s m).1 = .sent (some (s.requestId + 1)) m) ∧
    (s.ws = some .closed → (sendRequestAttempt s m).1 = .sendFailed) := by
  obtain ⟨st, rid, p, d, r, ws⟩ := s
  cases ws with
  | none => simp [sendRequestAttempt, sendNotificationAttempt]
  | some w =>
      cases w <;>
        simp [sendRequestAttempt, sendNotificationAttempt, nextRequestId]

/-- Witness for C2: at the concrete `CONNECTING` state the open-socket
branch of the theorem applies and yields the written frame. -/
theorem send_fails_notConnected_iff_no_ws_witness :
    c2State.ws = some .open_ ∧
    (sendRequestAttempt c2State "x").1 = .sent (some 4) "x" :=
  ⟨rfl, (send_fails_notConnected_iff_no_ws c2State "x").2.2.1 rfl⟩

/-! ### C6 — availability view -/

/-- Two connected providers advertising the same tool name. -/
def c6Avail : List MCPAvailability :=
  [ { name := "p1", status := .available, tools := ["t"] },
    { name := "p2", status := .available, tools := ["t"] } ]

/-- C6 counterexample: when two providers with status `AVAILABLE` both
advertise tool `"t"`, the reported `available` list contains `"t"` twice —
the duplicate advertised by the second-registered provider is added, so a
tool name does not appear at most once. -/
theorem c6_duplicate_tool_cex :
    availableTools c6Avail = ["t", "t"] ∧
    (reportAvailabilityPayload c6Avail).1 = ["t", "t"] ∧
    (availableTools c6Avail).count "t" = 2 :=
  ⟨rfl, rfl, by decide⟩

/-- C6 (amended): the reported `available` list is the concatenation, in
registration order, of the tool lists of providers whose status is
`AVAILABLE` — membership-wise exactly the union, but with duplicates
retained (no first-registered binding, no dedup) — and `unavailable` is
exactly the names of the remaining providers. -/
theorem availability_view_characterisation (av : List MCPAvailability)
    (t n : String) :
    (t ∈ (reportAvailabilityPayload av).1 ↔
      ∃ a ∈ av, a.status = .available ∧ t ∈ a.tools) ∧
    (n ∈ (reportAvailabilityPayload av).2 ↔
      ∃ a ∈ av, a.status ≠ .available ∧ a.name = n) ∧
    (reportAvailabilityPayload av).1 = availableTools av := by
  induction av with
  | nil => simp [reportAvailabilityPayload, availableTools]
  | cons a rest ih =>
      obtain ⟨ih1, ih2, ih3⟩ := ih
      refine ⟨?_, ?_, ?_⟩
      · by_cases h : a.status = .available <;>
          simp [reportAvailabilityPayload, h, ih1]
      · by_cases h : a.status = .available <;>
          simp [reportAvailabilityPayload, h, ih2] <;> aesop
      · by_cases h : a.status = .available <;>
          simp [reportAvailabilityPayload, availableTools, h, ih3]

/-! ### C8 — config push validation -/

/-- A push carrying the two malformed shapes named by the claim: a stdio
entry with an empty command, and an entry with both `url` and `command`. -/
def c8Raw : List (String × RawMCPEntry) :=
  [ ("bad-stdio", { command := some "" }),
    ("both", { command := some "run", url := some "http://cp" }) ]

/-- C8 counterexample: neither malformed entry is skipped —
`handle_config_push` accepts both, stores them, and replies
`{status: "ok", mcps_received: 2}` where the claim requires the malformed
entries to be excluded from the count. -/
theorem c8_malformed_entries_accepted_cex :
    (handleConfigPush (fun _ => none) c8Raw).1 = .ok 2 ∧
    (handleConfigPush (fun _ => none) c8Raw).1 ≠ .ok 0 ∧
    (handleConfigPush (fun _ => none) c8Raw).2 =
      [ ("bad-stdio", { name := "bad-stdio", command := "" }),
        ("both", { name := "both", command := "run",
                   url := some "http://cp" }) ] :=
  ⟨rfl, by decide, rfl⟩

/-- C8 (amended): `handle_config_push` performs no per-entry validation —
a stdio definition with an empty command or an entry carrying both `url`
and `command` is parsed and counted like any other entry.  On a well-typed
push the reply is always `{status: "ok", mcps_received: N}` with `N` the
number of entries in the push, and the stored configuration is the parse
of every entry; the `{status: "error", message}` reply is reachable only
when processing the push as a whole raises. -/
theorem config_push_counts_every_entry (lookup : String → Option String)
    (raw : List (String × RawMCPEntry)) :
    (handleConfigPush lookup raw).1 = .ok raw.length ∧
    (handleConfigPush lookup raw).2 =
      raw.map (fun nd => (nd.1, parseMcpConfig lookup nd.1 nd.2)) := by
  refine ⟨?_, rfl⟩
  simp [handleConfigPush]

/-! ### C9 — unknown methods and raising handlers -/

/-- C9 counterexample: a request frame (`id = 5`) whose method has no
registered handler is only logged at warn — `_handle_message` writes no
`MethodNotFound` error response back. -/
theorem c9_no_methodNotFound_reply_cex :
    (handleMessage [] [] ⟨some 5, some "unknown/method"⟩).1 = .logNoHandler ∧
    (handleMessage [] [] ⟨some 5, some "unknown/method"⟩).1 ≠
      .replyError 5 methodNotFoundCode "Method not found" :=
  ⟨rfl, by decide⟩

/-- C9 (amended): for an inbound request frame that does not match a
pending id, an unregistered method is logged at warn and dropped — no
reply of any kind (in particular no `MethodNotFound` error response) is
written back; a registered handler that raises is answered with an
`InternalError` response whose message carries the handler's error
text. -/
theorem inbound_dispatch_behaviour (pending : List Nat)
    (handlers : List (String × HandlerBehavior)) (i : Nat) (m : String)
    (hp : i ∉ pending) :
    (handlers.find? (fun h => h.1 = m) = none →
      handleMessage pending handlers ⟨some i, some m⟩ =
        (.logNoHandler, pending)) ∧
    (∀ e : String,
      (handlers.find? (fun h => h.1 = m)).map Prod.snd =
          some (.raiseErr e) →
      handleMessage pending handlers ⟨some i, some m⟩ =
        (.replyError i internalErrorCode e, pending)) := by
  constructor
  · intro hf
    simp [handleMessage, hp, dispatchToHandler, hf]
  · intro e hf
    simp [handleMessage, hp, dispatchToHandler, hf]

/-- Witness for C9: one raising handler registered for `"a"`; the request
with id 7 is answered with `InternalError -32603` carrying the handler's
message, and an unknown method is only logged. -/
theorem inbound_dispatch_behaviour_witness :
    (7 ∉ ([] : List Nat)) ∧
    handleMessage [] [("a", HandlerBehavior.raiseErr "boom")]
        ⟨some 7, some "a"⟩ =
      (.replyError 7 internalErrorCode "boom", []) ∧
    handleMessage [] [("a", HandlerBehavior.raiseErr "boom")]
        ⟨some 7, some "zzz"⟩ =
      (.logNoHandler, []) := by
  refine ⟨by simp, ?_, ?_⟩
  · exact (inbound_dispatch_behaviour [] [("a", .raiseErr "boom")] 7 "a"
      (by simp)).2 "boom" (by decide)
  · exact (inbound_dispatch_behaviour [] [("a", .raiseErr "boom")] 7 "zzz"
      (by simp)).1 (by decide)

/-! ### Helper lemmas about `connectStep` and `reconnectLoop` -/

theorem connectStep_wsFail (cfg : RunnerConfig) (s : EngineState)
    (hst : s.status ≠ .connected) :
    connectStep cfg s .wsFail =
      ({ s with status := .disconnected, shouldRun := true },
       some .connectFailed) := by
  unfold connectStep
  rw [if_neg hst]

theorem connectStep_authErr (cfg : RunnerConfig) (s : EngineState)
    (m : String) (hst : s.status ≠ .connected) :
    connectStep cfg s (.authErr m) =
      ({ s with status := .disconnected, shouldRun := true,
                ws := some .open_, requestId := s.requestId + 1 },
       some (.authFailed m)) := by
  unfold connectStep
  rw [if_neg hst]

theorem connectStep_ok (cfg : RunnerConfig) (s : EngineState)
    (hst : s.status ≠ .connected) :
    connectStep cfg s .ok =
      ({ s with status := .connected, shouldRun := true,
                ws := some .open_, requestId := s.requestId + 1,
                reconnectDelay := cfg.reconnectDelay },
       none) := by
  unfold connectStep
  rw [if_neg hst]

theorem reconnectLoop_attempts_pos (cfg : RunnerConfig) (s : EngineState)
    (o : ConnectOutcome) (rest : List ConnectOutcome)
    (hrun : s.shouldRun = true) :
    1 ≤ (reconnectLoop cfg s (o :: rest)).sleeps.length := by
  unfold reconnectLoop
  rw [hrun]
  simp only [if_true]
  rcases h2 : connectStep cfg s o with ⟨s', err⟩
  cases err <;> simp

theorem reconnectLoop_cons_fail (cfg : RunnerConfig) (s : EngineState)
    (o : ConnectOutcome) (rest : List ConnectOutcome)
    (hrun : s.shouldRun = true) (hst : s.status ≠ .connected)
    (hfail : o ≠ .ok) :
    reconnectLoop cfg s (o :: rest) =
      (let p := connectStep cfg s o
       let s'' := { p.1 with
         reconnectDelay := min (p.1.reconnectDelay * 2) cfg.maxReconnectDelay }
       let t := reconnectLoop cfg s'' rest
       ⟨s.reconnectDelay :: t.sleeps,
        (connectAssignedId cfg s o).toList ++ t.ids, t.final⟩) := by
  cases o with
  | wsFail =>
      conv_lhs => unfold reconnectLoop
      simp only [hrun, if_true, connectStep_wsFail cfg s hst]
  | authErr m =>
      conv_lhs => unfold reconnectLoop
      simp only [hrun, if_true, connectStep_authErr cfg s m hst]
  | ok => exact absurd rfl hfail

theorem reconnectLoop_cons_ok (cfg : RunnerConfig) (s : EngineState)
    (rest : List ConnectOutcome)
    (hrun : s.shouldRun = true) (hst : s.status ≠ .connected) :
    reconnectLoop cfg s (.ok :: rest) =
      ⟨[s.reconnectDelay], (connectAssignedId cfg s .ok).toList,
       (connectStep cfg s .ok).1⟩ := by
  conv_lhs => unfold reconnectLoop
  simp only [hrun, if_true, connectStep_ok cfg s hst]

/-! ### C3 — auth error during a connection attempt -/

def c3Cfg : RunnerConfig := { reconnectDelay := 1, maxReconnectDelay := 8 }

/-- Engine state as `_handle_disconnect` has just set `RECONNECTING`. -/
def c3State : EngineState :=
  { status := .reconnecting, requestId := 1, pending := [],
    reconnectDelay := 1, shouldRun := true, ws := some .closed }

/-- C3 counterexample: inside `_handle_disconnect`, an attempt whose
`runner/register` response carries an error does not stop the loop — the
loop sleeps again and performs a further attempt (two sleeps for the
outcome window `[authErr, ok]`), and that further attempt reconnects. -/
theorem c3_auth_error_retried_cex :
    (reconnectLoop c3Cfg c3State
        [.authErr "bad token", .ok]).sleeps.length = 2 ∧
    (connectStep c3Cfg c3State (.authErr "bad token")).2 =
      some (.authFailed "bad token") ∧
    (reconnectLoop c3Cfg c3State
        [.authErr "bad token", .ok]).final.status = .connected :=
  ⟨rfl, rfl, rfl⟩

/-- C3 (amended): a `runner/register` response carrying an error makes
`connect()` set the state to `Disconnected` and surface
`AuthFailed(message)` to its caller, which for the initial `start()` means
no reconnection; but when the failed attempt happens inside
`_handle_disconnect`, the loop treats the auth failure like any other
connection failure — it sleeps and performs a further reconnection
attempt rather than stopping. -/
theorem auth_error_fatal_only_on_initial_connect (cfg : RunnerConfig)
    (s : EngineState) (m : String) (hst : s.status ≠ .connected) :
    (connectStep cfg s (.authErr m)).1.status = .disconnected ∧
    (connectStep cfg s (.authErr m)).2 = some (.authFailed m) ∧
    (s.shouldRun = true → ∀ (o : ConnectOutcome) (rest : List ConnectOutcome),
      2 ≤ (reconnectLoop cfg s (.authErr m :: o :: rest)).sleeps.length) := by
  refine ⟨?_, ?_, ?_⟩
  · rw [connectStep_authErr cfg s m hst]
  · rw [connectStep_authErr cfg s m hst]
  · intro hrun o rest
    rw [reconnectLoop_cons_fail cfg s (.authErr m) (o :: rest) hrun hst
      (by simp)]
    simp only [List.length_cons]
    refine Nat.succ_le_succ ?_
    apply reconnectLoop_attempts_pos
    simp [connectStep_authErr cfg s m hst]

/-- Witness for C3: at the concrete reconnecting state, an auth error
leaves the engine `Disconnected` with the failure surfaced, and the loop
goes on to a second attempt. -/
theorem auth_error_fatal_only_on_initial_connect_witness :
    c3State.status ≠ .connected ∧
    (connectStep c3Cfg c3State (.authErr "bad")).1.status = .disconnected ∧
    2 ≤ (reconnectLoop c3Cfg c3State
        [.authErr "bad", .ok]).sleeps.length := by
  have h := auth_error_fatal_only_on_initial_connect c3Cfg c3State "bad"
    (by decide)
  exact ⟨by decide, h.1, h.2.2 rfl .ok []⟩

/-! ### C5 — heartbeat loop and watchdog -/

/-- An engine in `RECONNECTING` whose `_should_run` flag is still set
(as after a server-side close handled by the receive loop). -/
def c5State : EngineState :=
  { status := .reconnecting, requestId := 0, pending := [],
    reconnectDelay := 5, shouldRun := true, ws := some .closed }

/-- A `HeartbeatManager` just started, with an `on_timeout` callback. -/
def c5Mgr : HBMgrState :=
  { running := true, consecutiveFailures := 0, hasOnTimeout := true }

/-- C5 counterexample: the engine's heartbeat loop keeps running while
the status is `RECONNECTING` (it only skips the send), and in the
standalone `HeartbeatManager` one failed send raises the counter by two
(not one), so the `on_timeout` watchdog fires on the second consecutive
failure, with the counter at 4 — it is never exactly three. -/
theorem c5_heartbeat_cex :
    connHeartbeatLoopContinues c5State = true ∧
    c5State.status = .reconnecting ∧
    (hbLoopIter c5Mgr false).1.consecutiveFailures = 2 ∧
    (hbLoopIter (hbLoopIter c5Mgr false).1 false).2 = true ∧
    (hbLoopIter (hbLoopIter c5Mgr false).1 false).1.consecutiveFailures
      = 4 :=
  ⟨rfl, rfl, rfl, rfl, rfl⟩

/-- C5 (amended): each iteration of the engine's own heartbeat loop sends
a `runner/heartbeat` notification carrying the current wall-clock
timestamp exactly when the websocket handle is present and the status is
`Connected`; the loop itself keeps iterating whenever `_should_run` is
set, also while `Reconnecting` or `Disconnected` (it merely skips the
send), it tracks no failure counter and it never invokes the reconnection
machinery.  The standalone `HeartbeatManager` (not wired into the engine)
resets `consecutive_failures` to 0 on a successful send; a failed send
increments the counter twice (once in `_send_heartbeat`, once more in the
loop), and its `on_timeout` callback fires exactly when the
doubly-incremented counter has reached at least 3 and a callback is set —
i.e. on the second consecutive failed send. -/
theorem heartbeat_engine_and_manager (s : EngineState) (now : ℚ)
    (m : HBMgrState) :
    ((connHeartbeatIter s now).isSome ↔
      s.ws.isSome ∧ s.status = .connected) ∧
    (s.status = .connected → s.ws.isSome = true →
      connHeartbeatIter s now = some ("runner/heartbeat", now)) ∧
    connHeartbeatLoopContinues s = s.shouldRun ∧
    hbLoopIter m true = ({ m with consecutiveFailures := 0 }, false) ∧
    (hbLoopIter m false).1.consecutiveFailures =
      m.consecutiveFailures + 2 ∧
    (hbLoopIter m false).2 =
      (decide (3 ≤ m.consecutiveFailures + 2) && m.hasOnTimeout) := by
  refine ⟨?_, ?_, rfl, ?_, ?_, ?_⟩
  · unfold connHeartbeatIter
    split <;> simp_all
  · intro h1 h2
    unfold connHeartbeatIter
    rw [if_pos ⟨h2, h1⟩]
  · unfold hbLoopIter sendHeartbeatStep
    simp
  · unfold hbLoopIter sendHeartbeatStep
    simp
  · unfold hbLoopIter sendHeartbeatStep
    simp

/-- Witness for C5: at the concrete `Connected` state the send happens
with the given timestamp. -/
theorem heartbeat_engine_and_manager_witness :
    connHeartbeatIter
        { status := .connected, requestId := 0, pending := [],
          reconnectDelay := 5, shouldRun := true, ws := some .open_ } 17 =
      some ("runner/heartbeat", 17) :=
  (heartbeat_engine_and_manager
      { status := .connected, requestId := 0, pending := [],
        reconnectDelay := 5, shouldRun := true, ws := some .open_ } 17
      c5Mgr).2.1 rfl rfl

/-! ### C7 — hybrid tool invocation -/

/-- One connected provider advertising `"t1"`; CP would answer a proxy
request with result `"res"`. -/
def c7Env : ProxyEnv :=
  { availability := [ { name := "p", status := .available, tools := ["t1"] } ],
    connected := true,
    cpResponse := .respond none (some "res") }

/-- C7 counterexample: `"t1"` is in the local available-tool set, yet a
call to `invoke_tool` that supplies no local invoker sends a `tool/proxy`
frame to CP instead of invoking the locally bound provider. -/
theorem c7_local_tool_proxied_cex :
    "t1" ∈ availableTools c7Env.availability ∧
    invokeTool c7Env none "t1" "args" none =
      .proxied "t1" "args" defaultProxyTimeout (.ok "res") :=
  ⟨by decide, rfl⟩

/-- C7 (amended): `invoke_tool(tool_name, params)` invokes the locally
bound provider and returns its result verbatim (no frame sent to CP) only
when the tool is locally available *and* a local invoker is supplied;
with no local invoker every call — including one for a locally available
tool — is proxied.  A proxied call sends `tool/proxy` with params
`{tool, args}` and the per-call timeout override if given (Python-truthy),
else the configured proxy timeout (constructor default 60 s); on success
the response's `result` field is returned, and a CP error response is
returned as the value `{status: "error", error: {code, message}}` rather
than raised. -/
theorem invoke_tool_routing (env : ProxyEnv)
    (inv : String → Payload → Payload) (tool : String) (args : Payload)
    (t : Option ℚ) (r : Payload) (c : Int) (m : String) :
    (tool ∈ availableTools env.availability →
      invokeTool env (some inv) tool args t = .localResult (inv tool args)) ∧
    (env.connected = true → env.cpResponse = .respond none (some r) →
      tool ∉ availableTools env.availability →
      invokeTool env (some inv) tool args t =
        .proxied tool args (pyOrTimeout t env.proxyTimeout) (.ok r)) ∧
    (env.connected = true → env.cpResponse = .respond (some (c, m)) none →
      tool ∉ availableTools env.availability →
      invokeTool env (some inv) tool args t =
        .proxied tool args (pyOrTimeout t env.proxyTimeout)
          (.errData c m)) ∧
    invokeTool env none tool args t = proxyToolCall env tool args t ∧
    pyOrTimeout none env.proxyTimeout = env.proxyTimeout := by
  refine ⟨?_, ?_, ?_, ?_, rfl⟩
  · intro h
    simp [invokeTool, h]
  · intro hc hr h
    simp [invokeTool, h, proxyToolCall, hc, hr]
  · intro hc hr h
    simp [invokeTool, h, proxyToolCall, hc, hr]
  · unfold invokeTool
    split <;> rfl

/-- Witness for C7: with a local invoker supplied, the locally available
tool is executed locally; an unavailable tool is proxied and a CP error
comes back data-shaped. -/
theorem invoke_tool_routing_witness :
    invokeTool c7Env (some (fun n a => n ++ ":" ++ a)) "t1" "x" none =
      .localResult "t1:x" ∧
    invokeTool
        { c7Env with cpResponse := .respond (some (-32002, "no tool")) none }
        (some (fun n a => n ++ ":" ++ a)) "t9" "x" (some 5) =
      .proxied "t9" "x" 5 (.errData (-32002) "no tool") := by
  constructor
  · exact (invoke_tool_routing c7Env (fun n a => n ++ ":" ++ a) "t1" "x"
      none "r" 0 "m").1 (by decide)
  · exact (invoke_tool_routing
      { c7Env with cpResponse := .respond (some (-32002, "no tool")) none }
      (fun n a => n ++ ":" ++ a) "t9" "x" (some 5) "r" (-32002) "no tool"
      ).2.2.1 rfl rfl (by decide)

/-! ### C4 — exponential backoff sequence -/

theorem min_double_pow (a dm : ℚ) (hdm : 0 ≤ dm) (i : ℕ) :
    min (min (a * 2) dm * 2 ^ i) dm = min (a * 2 ^ (i + 1)) dm := by
  rw [min_mul_of_nonneg _ _ (by positivity : (0:ℚ) ≤ 2 ^ i), min_assoc,
    min_eq_right (le_mul_of_one_le_right hdm (one_le_pow₀ (by norm_num)))]
  have h2 : a * 2 * 2 ^ i = a * 2 ^ (i + 1) := by ring
  rw [h2]

theorem reconnectLoop_replicate_sleeps (cfg : RunnerConfig) (k : ℕ) :
    ∀ s : EngineState, s.shouldRun = true → s.status ≠ .connected →
      0 ≤ s.reconnectDelay → s.reconnectDelay ≤ cfg.maxReconnectDelay →
      (reconnectLoop cfg s (List.replicate k .wsFail)).sleeps =
        (List.range k).map
          (fun i => min (s.reconnectDelay * 2 ^ i) cfg.maxReconnectDelay) := by
  induction k with
  | zero => intro s _ _ _ _; rfl
  | succ k ih =>
      intro s hrun hst h0 hle
      have hdm : (0:ℚ) ≤ cfg.maxReconnectDelay := h0.trans hle
      rw [List.replicate_succ,
        reconnectLoop_cons_fail cfg s .wsFail _ hrun hst (by simp)]
      simp only [connectStep_wsFail cfg s hst]
      rw [ih { status := .disconnected, requestId := s.requestId,
               pending := s.pending,
               reconnectDelay :=
                 min (s.reconnectDelay * 2) cfg.maxReconnectDelay,
               shouldRun := true, ws := s.ws }
            rfl (by simp)
            (le_min (mul_nonneg h0 (by norm_num)) hdm) (min_le_right _ _)]
      rw [List.range_succ_eq_map, List.map_cons, List.map_map]
      simp only [pow_zero, mul_one, min_eq_left hle]
      congr 1
      refine List.map_congr_left ?_
      intro i _
      simp only [Function.comp_apply]
      exact min_double_pow s.reconnectDelay cfg.maxReconnectDelay hdm i

/-- Config with initial delay above the cap. -/
def c4Cfg : RunnerConfig := { reconnectDelay := 2, maxReconnectDelay := 1 }

def c4State : EngineState :=
  { status := .reconnecting, requestId := 0, pending := [],
    reconnectDelay := 2, shouldRun := true, ws := none }

/-- C4 counterexample: the sleep before the first attempt is the stored
delay as-is, not `min(d0·2^0, d_max)`: with `d0 = 2` and `d_max = 1` the
loop sleeps 2 where the claimed formula gives 1. -/
theorem c4_first_sleep_uncapped_cex :
    (reconnectLoop c4Cfg c4State (List.replicate 1 .wsFail)).sleeps = [2] ∧
    min ((2:ℚ) * 2 ^ 0) 1 = 1 ∧
    (2:ℚ) ≠ 1 :=
  ⟨rfl, by norm_num, by norm_num⟩

/-- C4 (amended): provided `0 ≤ d0 ≤ d_max` (as with the defaults
`5 ≤ 60`), the sleep before attempt `i` of a run of `k` consecutive
failures equals `min(d0 · 2^i, d_max)` (without that proviso the first
sleep is the uncapped stored delay `d0`); the delay is reset to the
configured initial value exactly by a successful `connect()` — a failed
or auth-rejected attempt leaves `connect()`'s delay untouched, the loop
doubles it — so the failure after a success sleeps `d0` again: a loop
entered with the delay reset sleeps `d0` before its first attempt. -/
theorem reconnect_backoff_sequence (cfg : RunnerConfig) (s : EngineState)
    (m : String) (k i : ℕ)
    (hrun : s.shouldRun = true) (hst : s.status ≠ .connected)
    (h0 : 0 ≤ s.reconnectDelay)
    (hle : s.reconnectDelay ≤ cfg.maxReconnectDelay) (hik : i < k) :
    (reconnectLoop cfg s (List.replicate k .wsFail)).sleeps[i]? =
      some (min (s.reconnectDelay * 2 ^ i) cfg.maxReconnectDelay) ∧
    (connectStep cfg s .ok).1.reconnectDelay = cfg.reconnectDelay ∧
    (connectStep cfg s .wsFail).1.reconnectDelay = s.reconnectDelay ∧
    (connectStep cfg s (.authErr m)).1.reconnectDelay = s.reconnectDelay ∧
    (∀ (o : ConnectOutcome) (rest : List ConnectOutcome),
      (reconnectLoop cfg { s with reconnectDelay := cfg.reconnectDelay }
          (o :: rest)).sleeps.head? = some cfg.reconnectDelay) := by
  refine ⟨?_, ?_, ?_, ?_, ?_⟩
  · rw [reconnectLoop_replicate_sleeps cfg k s hrun hst h0 hle]
    simp [List.getElem?_map, List.getElem?_range, hik]
  · rw [connectStep_ok cfg s hst]
  · rw [connectStep_wsFail cfg s hst]
  · rw [connectStep_authErr cfg s m hst]
  · intro o rest
    have hrun2 : ({ s with reconnectDelay := cfg.reconnectDelay } :
        EngineState).shouldRun = true := hrun
    conv_lhs => unfold reconnectLoop
    rw [if_pos hrun2]
    cases h2 : (connectStep cfg
        { s with reconnectDelay := cfg.reconnectDelay } o).2 <;>
      simp [h2]

/-- Witness for C4: with the default config (`d0 = 5`, `d_max = 60`) and
three consecutive failures, the sleep before attempt 2 is
`min(5·2² , 60) = 20`. -/
theorem reconnect_backoff_sequence_witness :
    (reconnectLoop { reconnectDelay := 5, maxReconnectDelay := 60 }
        { status := .reconnecting, requestId := 0, pending := [],
          reconnectDelay := 5, shouldRun := true, ws := none }
        (List.replicate 3 .wsFail)).sleeps[2]? = some 20 := by
  have h := reconnect_backoff_sequence
    { reconnectDelay := 5, maxReconnectDelay := 60 }
    { status := .reconnecting, requestId := 0, pending := [],
      reconnectDelay := 5, shouldRun := true, ws := none }
    "m" 3 2 rfl (by decide) (by norm_num) (by norm_num) (by norm_num)
  rw [h.1]
  norm_num

/-! ### C10 — request ids over the instance lifetime -/

/-- The request-id counter grows from `a` to `b` while assigning `ids`:
every assigned id exceeds `a`, none exceeds `b`, and assignment order is
strictly increasing. -/
def IdTrace (a b : Nat) (ids : List Nat) : Prop :=
  a ≤ b ∧ (∀ i ∈ ids, a < i ∧ i ≤ b) ∧ ids.Pairwise (· < ·)

theorem IdTrace.nil (a : Nat) : IdTrace a a [] :=
  ⟨le_rfl, by simp, by simp⟩

theorem IdTrace.single (a : Nat) : IdTrace a (a + 1) [a + 1] :=
  ⟨by omega, by simp, by simp⟩

theorem IdTrace.append {a m b : Nat} {xs ys : List Nat}
    (h1 : IdTrace a m xs) (h2 : IdTrace m b ys) :
    IdTrace a b (xs ++ ys) := by
  obtain ⟨hab, hx, hpx⟩ := h1
  obtain ⟨hmb, hy, hpy⟩ := h2
  refine ⟨hab.trans hmb, ?_, ?_⟩
  · intro i hi
    rcases List.mem_append.mp hi with h | h
    · exact ⟨(hx i h).1, (hx i h).2.trans hmb⟩
    · exact ⟨hab.trans_lt (hy i h).1, (hy i h).2⟩
  · rw [List.pairwise_append]
    exact ⟨hpx, hpy, fun x hxm y hym => (hx x hxm).2.trans_lt (hy y hym).1⟩

theorem connectStep_idTrace (cfg : RunnerConfig) (s : EngineState)
    (o : ConnectOutcome) :
    IdTrace s.requestId ((connectStep cfg s o).1).requestId
      (connectAssignedId cfg s o).toList := by
  unfold connectAssignedId
  by_cases h : s.status = .connected
  · unfold connectStep
    rw [if_pos h]
    simp only [if_pos rfl, Option.toList_none]
    exact IdTrace.nil _
  · cases o with
    | wsFail =>
        rw [connectStep_wsFail cfg s h]
        simp only [if_pos rfl, Option.toList_none]
        exact IdTrace.nil _
    | authErr m =>
        rw [connectStep_authErr cfg s m h]
        simp only [Nat.succ_ne_self, if_false, Option.toList_some]
        exact IdTrace.single _
    | ok =>
        rw [connectStep_ok cfg s h]
        simp only [Nat.succ_ne_self, if_false, Option.toList_some]
        exact IdTrace.single _

theorem reconnectLoop_idTrace (cfg : RunnerConfig)
    (outs : List ConnectOutcome) :
    ∀ s : EngineState,
      IdTrace s.requestId ((reconnectLoop cfg s outs).final).requestId
        (reconnectLoop cfg s outs).ids := by
  induction outs with
  | nil => intro s; exact IdTrace.nil _
  | cons o rest ih =>
      intro s
      unfold reconnectLoop
      by_cases hrun : s.shouldRun = true
      · rw [if_pos hrun]
        cases h2 : (connectStep cfg s o).2 with
        | none =>
            simp only [h2]
            exact connectStep_idTrace cfg s o
        | some e =>
            simp only [h2]
            exact IdTrace.append (connectStep_idTrace cfg s o)
              (ih { (connectStep cfg s o).1 with
                reconnectDelay :=
                  min ((connectStep cfg s o).1.reconnectDelay * 2)
                    cfg.maxReconnectDelay })
      · rw [if_neg hrun]
        exact IdTrace.nil _

theorem applyOp_idTrace (cfg : RunnerConfig) (s : EngineState)
    (op : EngineOp) :
    IdTrace s.requestId ((applyOp cfg s op).1).requestId
      (applyOp cfg s op).2 := by
  cases op with
  | sendReq m =>
      unfold applyOp sendRequestAttempt nextRequestId
      cases hw : s.ws with
      | none =>
          simp only [hw]
          exact IdTrace.nil _
      | some w =>
          cases w <;> simp only [hw] <;> exact IdTrace.single _
  | connectOp o => exact connectStep_idTrace cfg s o
  | disconnectOp => exact IdTrace.nil _
  | handleDisconnectOp os =>
      simp only [applyOp, handleDisconnect]
      by_cases hrun : s.shouldRun = true
      · rw [if_pos hrun]
        exact reconnectLoop_idTrace cfg os { s with status := .reconnecting }
      · rw [if_neg hrun]
        exact IdTrace.nil _

theorem runOps_idTrace (cfg : RunnerConfig) (ops : List EngineOp) :
    ∀ s : EngineState,
      IdTrace s.requestId ((runOps cfg s ops).1).requestId
        (runOps cfg s ops).2 := by
  induction ops with
  | nil => intro s; exact IdTrace.nil _
  | cons op rest ih =>
      intro s
      exact IdTrace.append (applyOp_idTrace cfg s op) (ih _)

/-- C10 (confirmed): the `_request_id` counter of one `RunnerConnection`
instance is never reset — `disconnect` leaves it unchanged and every
operation only grows it — so over any sequence of connect, disconnect and
reconnection cycles starting from a fresh instance, the request ids
assigned by `send_request` (including the register requests of
reconnects) form a strictly increasing, hence globally unique, sequence;
after a reconnect, ids continue past those of the previous connection
instead of restarting at 1. -/
theorem request_ids_strictly_increasing (cfg : RunnerConfig)
    (ops : List EngineOp) :
    ((runOps cfg (initialEngineState cfg) ops).2).Pairwise (· < ·) ∧
    (∀ i ∈ (runOps cfg (initialEngineState cfg) ops).2, 1 ≤ i) ∧
    (∀ s : EngineState, (disconnect s).requestId = s.requestId) ∧
    (∀ (s : EngineState) (o : ConnectOutcome),
      s.requestId ≤ ((connectStep cfg s o).1).requestId) := by
  obtain ⟨hle, hmem, hpair⟩ := runOps_idTrace cfg ops (initialEngineState cfg)
  refine ⟨hpair, ?_, fun _ => rfl, ?_⟩
  · intro i hi
    have := (hmem i hi).1
    simpa [initialEngineState] using this
  · intro s o
    exact (connectStep_idTrace cfg s o).1

end PlostonRunner
